import Mathlib

/-!
Verification of the controller pose correction in
`src/plugins/oculus/src/OculusHelpers.cpp` (`ovrControllerPoseToHandPose`).

The function is a pure numeric transform built from glm quaternion and
3-vector arithmetic.  We embed the glm operations used by the source
(Hamilton product, conjugate-over-normSq inverse, angle-axis construction,
quaternion rotation of a vector, componentwise vector product) over the
real numbers, define the source's constants and the transform itself
verbatim, and prove the specified properties.
-/

namespace OculusHelpers

noncomputable section

/-- A 3-component vector, as glm vec3 with real components. -/
@[ext] structure Vec3 where
  x : ℝ
  y : ℝ
  z : ℝ

/-- A quaternion, as glm quat with real components, stored w-first. -/
@[ext] structure Quat where
  w : ℝ
  x : ℝ
  y : ℝ
  z : ℝ

/-- Componentwise vector addition (glm vec3 operator+). -/
def Vec3.add (a b : Vec3) : Vec3 := ⟨a.x + b.x, a.y + b.y, a.z + b.z⟩

instance : Add Vec3 := ⟨Vec3.add⟩

/-- Componentwise vector product (glm vec3 operator*, used for the left
translation offset mirror). -/
def Vec3.cmul (a b : Vec3) : Vec3 := ⟨a.x * b.x, a.y * b.y, a.z * b.z⟩

/-- Scalar multiple of a vector (glm vec3 * scalar). -/
def Vec3.smul (s : ℝ) (v : Vec3) : Vec3 := ⟨s * v.x, s * v.y, s * v.z⟩

/-- Cross product (glm cross). -/
def Vec3.cross (a b : Vec3) : Vec3 :=
  ⟨a.y * b.z - a.z * b.y, a.z * b.x - a.x * b.z, a.x * b.y - a.y * b.x⟩

/-- Hamilton product (glm quat operator*). -/
def Quat.mul (p q : Quat) : Quat :=
  ⟨p.w * q.w - p.x * q.x - p.y * q.y - p.z * q.z,
   p.w * q.x + p.x * q.w + p.y * q.z - p.z * q.y,
   p.w * q.y + p.y * q.w + p.z * q.x - p.x * q.z,
   p.w * q.z + p.z * q.w + p.x * q.y - p.y * q.x⟩

instance : Mul Quat := ⟨Quat.mul⟩

/-- Quaternion conjugate (glm conjugate). -/
def Quat.conj (q : Quat) : Quat := ⟨q.w, -q.x, -q.y, -q.z⟩

/-- Squared norm, glm dot(q, q). -/
def Quat.normSq (q : Quat) : ℝ := q.w ^ 2 + q.x ^ 2 + q.y ^ 2 + q.z ^ 2

/-- Quaternion norm, glm length(q). -/
def Quat.norm (q : Quat) : ℝ := Real.sqrt q.normSq

/-- Quaternion inverse (glm inverse: conjugate divided by dot(q, q)). -/
def Quat.inv (q : Quat) : Quat :=
  ⟨q.w / q.normSq, -q.x / q.normSq, -q.y / q.normSq, -q.z / q.normSq⟩

/-- glm angleAxis: rotation of `t` radians about `axis`. -/
def angleAxis (t : ℝ) (axis : Vec3) : Quat :=
  ⟨Real.cos (t / 2), Real.sin (t / 2) * axis.x, Real.sin (t / 2) * axis.y,
   Real.sin (t / 2) * axis.z⟩

/-- Rotation of a vector by a quaternion (glm quat * vec3:
v + ((uv * q.w) + uuv) * 2 with uv = cross(q.xyz, v), uuv = cross(q.xyz, uv)). -/
def Quat.rotateVec (q : Quat) (v : Vec3) : Vec3 :=
  let u : Vec3 := ⟨q.x, q.y, q.z⟩
  let uv := u.cross v
  let uuv := u.cross uv
  v + Vec3.smul 2 (Vec3.smul q.w uv + uuv)

/-- hifi constant PI. -/
def PI : ℝ := Real.pi

/-- hifi constant PI_OVER_TWO. -/
def PI_OVER_TWO : ℝ := Real.pi / 2

/-- Vectors::UNIT_X. -/
def UNIT_X : Vec3 := ⟨1, 0, 0⟩

/-- Vectors::UNIT_Y. -/
def UNIT_Y : Vec3 := ⟨0, 1, 0⟩

/-- Vectors::UNIT_Z. -/
def UNIT_Z : Vec3 := ⟨0, 0, 1⟩

/-- The ovrHandType enum is a C integer enum; ovrHand_Left = 0. -/
abbrev ovrHandType := Int

def ovrHand_Left : ovrHandType := 0

def ovrHand_Right : ovrHandType := 1

def ovrHand_Count : ovrHandType := 2

/-- Source constant: yFlip = angleAxis(PI, UNIT_Y). -/
def yFlip : Quat := angleAxis PI UNIT_Y

/-- Source constant: quarterX = angleAxis(PI_OVER_TWO, UNIT_X). -/
def quarterX : Quat := angleAxis PI_OVER_TWO UNIT_X

/-- Source constant: touchToHand = yFlip * quarterX. -/
def touchToHand : Quat := yFlip * quarterX

/-- Source constant: leftQuarterZ = angleAxis(-PI_OVER_TWO, UNIT_Z). -/
def leftQuarterZ : Quat := angleAxis (-PI_OVER_TWO) UNIT_Z

/-- Source constant: rightQuarterZ = angleAxis(PI_OVER_TWO, UNIT_Z). -/
def rightQuarterZ : Quat := angleAxis PI_OVER_TWO UNIT_Z

/-- Source constant: eighthX = angleAxis(PI / 4, UNIT_X). -/
def eighthX : Quat := angleAxis (PI / 4) UNIT_X

/-- Source constant: leftRotationOffset = inverse(leftQuarterZ * eighthX) * touchToHand. -/
def leftRotationOffset : Quat := (leftQuarterZ * eighthX).inv * touchToHand

/-- Source constant: rightRotationOffset = inverse(rightQuarterZ * eighthX) * touchToHand. -/
def rightRotationOffset : Quat := (rightQuarterZ * eighthX).inv * touchToHand

/-- Source constant: CONTROLLER_LENGTH_OFFSET = 0.0762f (three inches). -/
def CONTROLLER_LENGTH_OFFSET : ℝ := 0.0762

/-- Source constant: CONTROLLER_OFFSET =
vec3(CONTROLLER_LENGTH_OFFSET / 2, CONTROLLER_LENGTH_OFFSET / 2, CONTROLLER_LENGTH_OFFSET * 2). -/
def CONTROLLER_OFFSET : Vec3 :=
  ⟨CONTROLLER_LENGTH_OFFSET / 2, CONTROLLER_LENGTH_OFFSET / 2,
   CONTROLLER_LENGTH_OFFSET * 2⟩

/-- Source constant: leftTranslationOffset = vec3(-1, 1, 1) * CONTROLLER_OFFSET. -/
def leftTranslationOffset : Vec3 := Vec3.cmul ⟨-1, 1, 1⟩ CONTROLLER_OFFSET

/-- Source constant: rightTranslationOffset = CONTROLLER_OFFSET. -/
def rightTranslationOffset : Vec3 := CONTROLLER_OFFSET

/-- Raw device pose record (ovrPoseStatef: ThePose.Orientation, ThePose.Position,
AngularVelocity, LinearVelocity). -/
structure OvrPoseStatef where
  orientation : Quat
  position : Vec3
  angularVelocity : Vec3
  linearVelocity : Vec3

/-- Host pose record (controller::Pose fields written by the function). -/
structure Pose where
  translation : Vec3
  rotation : Quat
  velocity : Vec3
  angularVelocity : Vec3
  valid : Bool

/-- Translation offset selection, source line 268:
hand == ovrHand_Left ? leftTranslationOffset : rightTranslationOffset. -/
def translationOffsetOf (hand : ovrHandType) : Vec3 :=
  if hand = ovrHand_Left then leftTranslationOffset else rightTranslationOffset

/-- Rotation offset selection, source line 269:
hand == ovrHand_Left ? leftRotationOffset : rightRotationOffset. -/
def rotationOffsetOf (hand : ovrHandType) : Quat :=
  if hand = ovrHand_Left then leftRotationOffset else rightRotationOffset

/-- The pose correction transform, source lines 199-281. -/
def ovrControllerPoseToHandPose (hand : ovrHandType) (handPose : OvrPoseStatef) : Pose :=
  let rotation := handPose.orientation
  { translation := handPose.position + rotation.rotateVec (translationOffsetOf hand)
    rotation := rotation * rotationOffsetOf hand
    velocity := handPose.linearVelocity
    angularVelocity := handPose.angularVelocity
    valid := true }

/-! ### Component lemmas for the glm operations -/

@[simp] lemma Vec3.add_x (a b : Vec3) : (a + b).x = a.x + b.x := rfl

@[simp] lemma Vec3.add_y (a b : Vec3) : (a + b).y = a.y + b.y := rfl

@[simp] lemma Vec3.add_z (a b : Vec3) : (a + b).z = a.z + b.z := rfl

@[simp] lemma Vec3.smul_x (s : ℝ) (v : Vec3) : (Vec3.smul s v).x = s * v.x := rfl

@[simp] lemma Vec3.smul_y (s : ℝ) (v : Vec3) : (Vec3.smul s v).y = s * v.y := rfl

@[simp] lemma Vec3.smul_z (s : ℝ) (v : Vec3) : (Vec3.smul s v).z = s * v.z := rfl

@[simp] lemma Vec3.cross_x (a b : Vec3) : (a.cross b).x = a.y * b.z - a.z * b.y := rfl

@[simp] lemma Vec3.cross_y (a b : Vec3) : (a.cross b).y = a.z * b.x - a.x * b.z := rfl

@[simp] lemma Vec3.cross_z (a b : Vec3) : (a.cross b).z = a.x * b.y - a.y * b.x := rfl

@[simp] lemma Vec3.cmul_x (a b : Vec3) : (a.cmul b).x = a.x * b.x := rfl

@[simp] lemma Vec3.cmul_y (a b : Vec3) : (a.cmul b).y = a.y * b.y := rfl

@[simp] lemma Vec3.cmul_z (a b : Vec3) : (a.cmul b).z = a.z * b.z := rfl

@[simp] lemma Quat.mul_w (p q : Quat) :
    (p * q).w = p.w * q.w - p.x * q.x - p.y * q.y - p.z * q.z := rfl

@[simp] lemma Quat.mul_x (p q : Quat) :
    (p * q).x = p.w * q.x + p.x * q.w + p.y * q.z - p.z * q.y := rfl

@[simp] lemma Quat.mul_y (p q : Quat) :
    (p * q).y = p.w * q.y + p.y * q.w + p.z * q.x - p.x * q.z := rfl

@[simp] lemma Quat.mul_z (p q : Quat) :
    (p * q).z = p.w * q.z + p.z * q.w + p.x * q.y - p.y * q.x := rfl

lemma Quat.rotateVec_eq (q : Quat) (v : Vec3) :
    q.rotateVec v =
      v + Vec3.smul 2 (Vec3.smul q.w (Vec3.cross ⟨q.x, q.y, q.z⟩ v) +
        Vec3.cross ⟨q.x, q.y, q.z⟩ (Vec3.cross ⟨q.x, q.y, q.z⟩ v)) := rfl

/-- The multiplicative identity quaternion fixes every quaternion on the left. -/
lemma Quat.id_mul (q : Quat) : (⟨1, 0, 0, 0⟩ : Quat) * q = q := by
  ext <;> simp

/-- Rotating a vector by the identity quaternion leaves it unchanged. -/
lemma Quat.rotateVec_id (v : Vec3) : Quat.rotateVec ⟨1, 0, 0, 0⟩ v = v := by
  rw [Quat.rotateVec_eq]
  ext <;> simp

/-- Adding the zero vector on the left leaves a vector unchanged. -/
lemma Vec3.zero_add (v : Vec3) : (⟨0, 0, 0⟩ : Vec3) + v = v := by
  ext <;> simp

/-! ### Claim theorems: structural properties of the transform -/

/-- Claim C1: for every raw device pose and handedness, the returned rotation is
rawOrientation composed (device orientation first, on the left) with the
handedness rotation offset, and the returned translation is rawPosition plus the
handedness translation offset rotated by rawOrientation. -/
theorem claim_C1_rotation_translation (hand : ovrHandType) (p : OvrPoseStatef) :
    (ovrControllerPoseToHandPose hand p).rotation = p.orientation * rotationOffsetOf hand ∧
    (ovrControllerPoseToHandPose hand p).translation =
      p.position + p.orientation.rotateVec (translationOffsetOf hand) :=
  ⟨rfl, rfl⟩

/-- Claim C5: the left translation offset is the right translation offset with the
first lateral component negated and the other two components kept. -/
theorem claim_C5_mirror :
    leftTranslationOffset =
      ⟨-rightTranslationOffset.x, rightTranslationOffset.y, rightTranslationOffset.z⟩ := by
  ext <;> simp [leftTranslationOffset, rightTranslationOffset, CONTROLLER_OFFSET]

/-- Claim C6: for every input raw pose and handedness, the output linear and
angular velocities equal the input linear and angular velocities unchanged. -/
theorem claim_C6_velocity_passthrough (hand : ovrHandType) (p : OvrPoseStatef) :
    (ovrControllerPoseToHandPose hand p).velocity = p.linearVelocity ∧
    (ovrControllerPoseToHandPose hand p).angularVelocity = p.angularVelocity :=
  ⟨rfl, rfl⟩

/-- Claim C7: for every input raw pose and handedness, the validity flag of the
returned pose is true, unconditionally. -/
theorem claim_C7_valid (hand : ovrHandType) (p : OvrPoseStatef) :
    (ovrControllerPoseToHandPose hand p).valid = true := rfl

/-- Claim C9: the transform is deterministic and stateless; two calls with
identical handedness and identical raw pose yield identical output poses. -/
theorem claim_C9_deterministic (h1 h2 : ovrHandType) (p1 p2 : OvrPoseStatef)
    (hh : h1 = h2) (hp : p1 = p2) :
    ovrControllerPoseToHandPose h1 p1 = ovrControllerPoseToHandPose h2 p2 := by
  rw [hh, hp]

/-- Witness for claim C9 at a concrete handedness and raw pose. -/
theorem claim_C9_witness :
    ovrControllerPoseToHandPose ovrHand_Right ⟨⟨1, 0, 0, 0⟩, ⟨0, 0, 0⟩, ⟨0, 0, 0⟩, ⟨1, 0, 0⟩⟩ =
      ovrControllerPoseToHandPose ovrHand_Right ⟨⟨1, 0, 0, 0⟩, ⟨0, 0, 0⟩, ⟨0, 0, 0⟩, ⟨1, 0, 0⟩⟩ :=
  claim_C9_deterministic _ _ _ _ rfl rfl

/-- Claim C10: every handedness value other than ovrHand_Left (including values
outside the enum range) selects the right-hand constants, so the output equals
the output for ovrHand_Right. -/
theorem claim_C10_default_right (hand : ovrHandType) (p : OvrPoseStatef)
    (h : hand ≠ ovrHand_Left) :
    ovrControllerPoseToHandPose hand p = ovrControllerPoseToHandPose ovrHand_Right p := by
  have hr : ¬ ovrHand_Right = ovrHand_Left := by decide
  simp only [ovrControllerPoseToHandPose, rotationOffsetOf, translationOffsetOf,
    if_neg h, if_neg hr]

/-- Witness for claim C10 at the out-of-range handedness value ovrHand_Count. -/
theorem claim_C10_witness :
    ovrHand_Count ≠ ovrHand_Left ∧
    ovrControllerPoseToHandPose ovrHand_Count ⟨⟨1, 0, 0, 0⟩, ⟨0, 0, 0⟩, ⟨0, 0, 0⟩, ⟨0, 0, 0⟩⟩ =
      ovrControllerPoseToHandPose ovrHand_Right ⟨⟨1, 0, 0, 0⟩, ⟨0, 0, 0⟩, ⟨0, 0, 0⟩, ⟨0, 0, 0⟩⟩ :=
  ⟨by decide, claim_C10_default_right _ _ (by decide)⟩

/-- Claim C2: with identity raw orientation and zero raw position the corrected
rotation is exactly the selected rotation offset and the corrected translation is
exactly the selected translation offset; in particular the concrete right-hand
scenario with linear velocity (1,0,0) returns the right-hand constants with
velocities passed through and the valid flag set. -/
theorem claim_C2_identity_raw_pose :
    (∀ (hand : ovrHandType) (lv av : Vec3),
      (ovrControllerPoseToHandPose hand ⟨⟨1, 0, 0, 0⟩, ⟨0, 0, 0⟩, av, lv⟩).rotation =
        rotationOffsetOf hand ∧
      (ovrControllerPoseToHandPose hand ⟨⟨1, 0, 0, 0⟩, ⟨0, 0, 0⟩, av, lv⟩).translation =
        translationOffsetOf hand) ∧
    ovrControllerPoseToHandPose ovrHand_Right ⟨⟨1, 0, 0, 0⟩, ⟨0, 0, 0⟩, ⟨0, 0, 0⟩, ⟨1, 0, 0⟩⟩ =
      ⟨rightTranslationOffset, rightRotationOffset, ⟨1, 0, 0⟩, ⟨0, 0, 0⟩, true⟩ := by
  have hr : ¬ ovrHand_Right = ovrHand_Left := by decide
  constructor
  · intro hand lv av
    constructor
    · show (⟨1, 0, 0, 0⟩ : Quat) * rotationOffsetOf hand = rotationOffsetOf hand
      exact Quat.id_mul _
    · show (⟨0, 0, 0⟩ : Vec3) + Quat.rotateVec ⟨1, 0, 0, 0⟩ (translationOffsetOf hand) =
        translationOffsetOf hand
      rw [Quat.rotateVec_id, Vec3.zero_add]
  · simp only [ovrControllerPoseToHandPose, rotationOffsetOf, translationOffsetOf,
      if_neg hr, Quat.rotateVec_id, Vec3.zero_add, Quat.id_mul]

/-- Counterexample to claim C4: the claimed full magnitude 0.0762 appears on no
axis of the right translation offset (the length-axis component is twice it),
and the left offset does not negate the second lateral component. -/
theorem claim_C4_counterexample :
    rightTranslationOffset.x ≠ CONTROLLER_LENGTH_OFFSET ∧
    rightTranslationOffset.y ≠ CONTROLLER_LENGTH_OFFSET ∧
    rightTranslationOffset.z ≠ CONTROLLER_LENGTH_OFFSET ∧
    leftTranslationOffset.y ≠ -rightTranslationOffset.y := by
  refine ⟨?_, ?_, ?_, ?_⟩ <;>
    norm_num [rightTranslationOffset, leftTranslationOffset, CONTROLLER_OFFSET,
      CONTROLLER_LENGTH_OFFSET]

/-- Claim C4 (amended): the translation offsets carry half of 0.0762 m along each
of the two lateral axes and twice 0.0762 m along the length axis, and the left
constant is the right constant with only the first lateral component negated. -/
theorem claim_C4_amended :
    rightTranslationOffset = ⟨0.0762 / 2, 0.0762 / 2, 0.0762 * 2⟩ ∧
    leftTranslationOffset = ⟨-(0.0762 / 2), 0.0762 / 2, 0.0762 * 2⟩ := by
  constructor <;> ext <;>
    norm_num [rightTranslationOffset, leftTranslationOffset, CONTROLLER_OFFSET,
      CONTROLLER_LENGTH_OFFSET]

/-! ### Norm lemmas for the rotation constants -/

lemma Quat.normSq_mul (p q : Quat) : (p * q).normSq = p.normSq * q.normSq := by
  simp only [Quat.normSq, Quat.mul_w, Quat.mul_x, Quat.mul_y, Quat.mul_z]
  ring

lemma Quat.normSq_conj (q : Quat) : q.conj.normSq = q.normSq := by
  simp [Quat.normSq, Quat.conj]

lemma Quat.inv_of_unit (q : Quat) (h : q.normSq = 1) : q.inv = q.conj := by
  ext <;> simp [Quat.inv, Quat.conj, h]

lemma normSq_angleAxis_X (t : ℝ) : (angleAxis t UNIT_X).normSq = 1 := by
  simp [angleAxis, UNIT_X, Quat.normSq]

lemma normSq_angleAxis_Y (t : ℝ) : (angleAxis t UNIT_Y).normSq = 1 := by
  simp [angleAxis, UNIT_Y, Quat.normSq]

lemma normSq_angleAxis_Z (t : ℝ) : (angleAxis t UNIT_Z).normSq = 1 := by
  simp [angleAxis, UNIT_Z, Quat.normSq]

lemma normSq_touchToHand : touchToHand.normSq = 1 := by
  unfold touchToHand yFlip quarterX
  rw [Quat.normSq_mul, normSq_angleAxis_Y, normSq_angleAxis_X]
  norm_num

lemma normSq_leftMount : (leftQuarterZ * eighthX).normSq = 1 := by
  unfold leftQuarterZ eighthX
  rw [Quat.normSq_mul, normSq_angleAxis_Z, normSq_angleAxis_X]
  norm_num

lemma normSq_rightMount : (rightQuarterZ * eighthX).normSq = 1 := by
  unfold rightQuarterZ eighthX
  rw [Quat.normSq_mul, normSq_angleAxis_Z, normSq_angleAxis_X]
  norm_num

lemma normSq_leftRotationOffset : leftRotationOffset.normSq = 1 := by
  unfold leftRotationOffset
  rw [Quat.normSq_mul, Quat.inv_of_unit _ normSq_leftMount, Quat.normSq_conj,
    normSq_leftMount, normSq_touchToHand]
  norm_num

lemma normSq_rightRotationOffset : rightRotationOffset.normSq = 1 := by
  unfold rightRotationOffset
  rw [Quat.normSq_mul, Quat.inv_of_unit _ normSq_rightMount, Quat.normSq_conj,
    normSq_rightMount, normSq_touchToHand]
  norm_num

lemma normSq_rotationOffsetOf (hand : ovrHandType) : (rotationOffsetOf hand).normSq = 1 := by
  unfold rotationOffsetOf
  split
  · exact normSq_leftRotationOffset
  · exact normSq_rightRotationOffset

/-- Claim C8: for every unit raw orientation and every handedness, the rotation of
the returned pose has norm exactly 1: composing the unit raw orientation with the
unit rotation offset constant yields a unit quaternion. -/
theorem claim_C8_unit_norm (hand : ovrHandType) (p : OvrPoseStatef)
    (h : p.orientation.normSq = 1) :
    (ovrControllerPoseToHandPose hand p).rotation.norm = 1 := by
  show (p.orientation * rotationOffsetOf hand).norm = 1
  rw [Quat.norm, Quat.normSq_mul, h, normSq_rotationOffsetOf, one_mul, Real.sqrt_one]

/-- Witness for claim C8 at the identity orientation and right handedness. -/
theorem claim_C8_witness :
    (Quat.mk 1 0 0 0).normSq = 1 ∧
    (ovrControllerPoseToHandPose ovrHand_Right
      ⟨⟨1, 0, 0, 0⟩, ⟨0, 0, 0⟩, ⟨0, 0, 0⟩, ⟨0, 0, 0⟩⟩).rotation.norm = 1 :=
  ⟨by norm_num [Quat.normSq], claim_C8_unit_norm _ _ (by norm_num [Quat.normSq])⟩

/-! ### Component evaluation of the rotation constants -/

lemma yFlip_eval : yFlip = ⟨0, 0, 1, 0⟩ := by
  unfold yFlip angleAxis UNIT_Y PI
  ext <;> simp

lemma quarterX_eval : quarterX = ⟨Real.sqrt 2 / 2, Real.sqrt 2 / 2, 0, 0⟩ := by
  unfold quarterX angleAxis UNIT_X PI_OVER_TWO
  have h : Real.pi / 2 / 2 = Real.pi / 4 := by ring
  rw [h]
  ext <;> simp [Real.cos_pi_div_four, Real.sin_pi_div_four]

lemma touchToHand_eval : touchToHand = ⟨0, 0, Real.sqrt 2 / 2, -(Real.sqrt 2 / 2)⟩ := by
  unfold touchToHand
  rw [yFlip_eval, quarterX_eval]
  ext <;> simp

lemma eighthX_eval : eighthX = ⟨Real.cos (Real.pi / 8), Real.sin (Real.pi / 8), 0, 0⟩ := by
  unfold eighthX angleAxis UNIT_X PI
  have h : Real.pi / 4 / 2 = Real.pi / 8 := by ring
  rw [h]
  ext <;> simp

lemma leftQuarterZ_eval : leftQuarterZ = ⟨Real.sqrt 2 / 2, 0, 0, -(Real.sqrt 2 / 2)⟩ := by
  unfold leftQuarterZ angleAxis UNIT_Z PI_OVER_TWO
  have h : -(Real.pi / 2) / 2 = -(Real.pi / 4) := by ring
  rw [h, Real.cos_neg, Real.sin_neg]
  ext <;> simp [Real.cos_pi_div_four, Real.sin_pi_div_four]

lemma leftMount_eval :
    leftQuarterZ * eighthX =
      ⟨Real.sqrt 2 / 2 * Real.cos (Real.pi / 8), Real.sqrt 2 / 2 * Real.sin (Real.pi / 8),
       -(Real.sqrt 2 / 2 * Real.sin (Real.pi / 8)),
       -(Real.sqrt 2 / 2 * Real.cos (Real.pi / 8))⟩ := by
  rw [leftQuarterZ_eval, eighthX_eval]
  ext <;> simp

/-- The w component of the left rotation offset used by the source. -/
lemma leftRotationOffset_w :
    leftRotationOffset.w = Real.cos (Real.pi / 8) / 2 - Real.sin (Real.pi / 8) / 2 := by
  unfold leftRotationOffset
  rw [Quat.inv_of_unit _ normSq_leftMount, leftMount_eval, touchToHand_eval]
  simp only [Quat.conj, Quat.mul_w]
  ring_nf
  rw [Real.sq_sqrt (by norm_num : (0:ℝ) ≤ 2)]
  ring

/-- Modelled from the spec wording of claim C3: the left hand mount offset taken
about the vertical (Y) axis, the axis the claim's terminology designates, where
the source rotates about UNIT_Z.  Defined only to compare the claim text with
the source constants. -/
def claimLeftMountY : Quat := angleAxis (-PI_OVER_TWO) UNIT_Y * eighthX

/-- The left rotation offset that the claim C3 wording (vertical-axis mount)
would produce. -/
def claimLeftRotationOffsetY : Quat := claimLeftMountY.inv * touchToHand

lemma leftQuarterY_eval :
    angleAxis (-PI_OVER_TWO) UNIT_Y = ⟨Real.sqrt 2 / 2, 0, -(Real.sqrt 2 / 2), 0⟩ := by
  unfold angleAxis UNIT_Y PI_OVER_TWO
  have h : -(Real.pi / 2) / 2 = -(Real.pi / 4) := by ring
  rw [h, Real.cos_neg, Real.sin_neg]
  ext <;> simp [Real.cos_pi_div_four, Real.sin_pi_div_four]

lemma claimLeftMountY_eval :
    claimLeftMountY =
      ⟨Real.sqrt 2 / 2 * Real.cos (Real.pi / 8), Real.sqrt 2 / 2 * Real.sin (Real.pi / 8),
       -(Real.sqrt 2 / 2 * Real.cos (Real.pi / 8)),
       Real.sqrt 2 / 2 * Real.sin (Real.pi / 8)⟩ := by
  unfold claimLeftMountY
  rw [leftQuarterY_eval, eighthX_eval]
  ext <;> simp

lemma normSq_claimLeftMountY : claimLeftMountY.normSq = 1 := by
  unfold claimLeftMountY eighthX
  rw [Quat.normSq_mul, normSq_angleAxis_Y, normSq_angleAxis_X]
  norm_num

/-- The w component of the rotation offset the claim C3 wording would produce. -/
lemma claimLeftRotationOffsetY_w :
    claimLeftRotationOffsetY.w =
      -(Real.cos (Real.pi / 8) / 2) - Real.sin (Real.pi / 8) / 2 := by
  unfold claimLeftRotationOffsetY
  rw [Quat.inv_of_unit _ normSq_claimLeftMountY, claimLeftMountY_eval, touchToHand_eval]
  simp only [Quat.conj, Quat.mul_w]
  ring_nf
  rw [Real.sq_sqrt (by norm_num : (0:ℝ) ≤ 2)]
  ring

/-- Counterexample to claim C3: taking the hand mount offset about the vertical
(Y) axis, as the claim words it, does not reproduce the source's left rotation
offset (the source rotates about the Z axis); the two quaternions differ in
their w components. -/
theorem claim_C3_counterexample : leftRotationOffset ≠ claimLeftRotationOffsetY := by
  intro h
  have hw := congrArg Quat.w h
  rw [leftRotationOffset_w, claimLeftRotationOffsetY_w] at hw
  have hmem : Real.pi / 8 ∈ Set.Ioo (-(Real.pi / 2)) (Real.pi / 2) :=
    Set.mem_Ioo.mpr ⟨by linarith [Real.pi_pos], by linarith [Real.pi_pos]⟩
  have hA : 0 < Real.cos (Real.pi / 8) := Real.cos_pos_of_mem_Ioo hmem
  linarith

/-- Claim C3 (amended): touchToHand is the 180-degree vertical (Y) rotation
composed with the 90-degree lateral (X) rotation; each hand mount offset is the
signed 90-degree rotation about the forward (Z) axis, not the vertical axis,
composed with the 45-degree lateral (X) rotation; and each final offset is
inverse(handMountOffset) * touchToHand. -/
theorem claim_C3_amended :
    touchToHand = angleAxis PI UNIT_Y * angleAxis PI_OVER_TWO UNIT_X ∧
    leftRotationOffset =
      (angleAxis (-PI_OVER_TWO) UNIT_Z * angleAxis (PI / 4) UNIT_X).inv * touchToHand ∧
    rightRotationOffset =
      (angleAxis PI_OVER_TWO UNIT_Z * angleAxis (PI / 4) UNIT_X).inv * touchToHand :=
  ⟨rfl, rfl, rfl⟩

end

end OculusHelpers
